import Mathlib

/-!
Shallow embedding of the Loopia Terraform provider's adapter logic
(internal/provider): the zone-record resource, the subdomain resource,
the domain data source, and provider configuration.  Go machine integers
are modelled as `Int` with explicit two's-complement truncation where the
source converts between widths; fallible client calls are modelled as
`Except String`; the remote client is an oracle record of functions.
-/

/-- Two's-complement truncation of an arbitrary integer to a signed
32-bit value, the semantics of Go's `int32(x)` conversion. -/
def toInt32 (x : Int) : Int :=
  (x + 2 ^ 31) % 2 ^ 32 - 2 ^ 31

/-- Terraform framework string attribute value: null, unknown, or a
known string (`types.String`). -/
inductive TFString where
  | nullV : TFString
  | unknownV : TFString
  | val : String → TFString
deriving DecidableEq, Repr

/-- Go `types.String.ValueString()`: the known string, or "" for
null/unknown. -/
def TFString.valueString : TFString → String
  | .nullV => ""
  | .unknownV => ""
  | .val s => s

/-- Go `types.String.IsNull()`. -/
def TFString.isNull : TFString → Bool
  | .nullV => true
  | _ => false

/-- Go `types.String.IsUnknown()`. -/
def TFString.isUnknown : TFString → Bool
  | .unknownV => true
  | _ => false

/-- Go `types.StringValue`. -/
def TFString.stringValue (s : String) : TFString := .val s

/-- Terraform framework 32-bit integer attribute value (`types.Int32`);
a known value holds the stored 32-bit integer as an `Int`. -/
inductive TFInt32 where
  | nullV : TFInt32
  | unknownV : TFInt32
  | val : Int → TFInt32
deriving DecidableEq, Repr

/-- Go `types.Int32.ValueInt32()`: the known value, or 0 for
null/unknown. -/
def TFInt32.valueInt32 : TFInt32 → Int
  | .nullV => 0
  | .unknownV => 0
  | .val n => n

/-- Go `types.Int32Value(int32(x))` as used by the adapters: the argument
has already been truncated to 32 bits by the caller. -/
def TFInt32.int32Value (n : Int) : TFInt32 := .val n

namespace loopia

/-- Loopia API zone record DTO (`loopia.Record`): `ID` is Go `int64`,
`TTL` and `Priority` are Go `int`. -/
structure Record where
  ID : Int
  TTL : Int
  RecType : String
  Value : String
  Priority : Int
deriving DecidableEq, Repr

/-- Loopia API subdomain DTO: only the name is consumed by the
adapters. -/
structure Subdomain where
  Name : String
deriving DecidableEq, Repr

/-- Loopia API domain DTO (`loopia.Domain`) as consumed by the domain
data source. -/
structure Domain where
  Name : String
  Paid : Bool
  Registered : Bool
  RenewalStatus : String
  ExpirationDate : String
  ReferenceNumber : Int
deriving DecidableEq, Repr

end loopia

/-- Diagnostic entry: `AddError` yields `attribute = none`,
`AddAttributeError (path.Root a)` yields `attribute = some a`. -/
structure Diag where
  attr : Option String
  summary : String
  detail : String
deriving DecidableEq, Repr

/-- Nested `record` attribute model of the zone-record resource
(`recordModel`). -/
structure recordModel where
  RecType : TFString
  Ttl : TFInt32
  Priority : TFInt32
  Value : TFString
  RecordId : TFInt32
deriving DecidableEq, Repr

/-- Zone-record resource state/plan model
(`ZoneRecordResourceModel`). -/
structure ZoneRecordResourceModel where
  Domain : TFString
  Subdomain : TFString
  Record : recordModel
deriving DecidableEq, Repr

/-- Subdomain resource state/plan model (`SubdomainResourceModel`). -/
structure SubdomainResourceModel where
  Domain : TFString
  Subdomain : TFString
deriving DecidableEq, Repr

/-- Conversion of the Terraform model to a Loopia API record
(`recordModel.toClientRecord`): Go widens the stored `int32` values with
`int64(...)` and `int(...)`, which are exact. -/
def recordModel.toClientRecord (m : recordModel) : loopia.Record :=
  { ID := m.RecordId.valueInt32
    TTL := m.Ttl.valueInt32
    RecType := m.RecType.valueString
    Value := m.Value.valueString
    Priority := m.Priority.valueInt32 }

/-- Conversion of a Loopia API record to the Terraform model
(`recordModelFromClient`): Go narrows `ID`, `TTL`, `Priority` with
`int32(...)`, a two's-complement truncation. -/
def recordModelFromClient (rec : loopia.Record) : recordModel :=
  { RecType := TFString.stringValue rec.RecType
    Ttl := TFInt32.int32Value (toInt32 rec.TTL)
    Priority := TFInt32.int32Value (toInt32 rec.Priority)
    Value := TFString.stringValue rec.Value
    RecordId := TFInt32.int32Value (toInt32 rec.ID) }

/-- Structural match between a listed client record and the planned
record (`zoneRecordResource.recordsMatch`). -/
def recordsMatch (apiRecord : loopia.Record) (planRecord : recordModel) : Bool :=
  apiRecord.RecType == planRecord.RecType.valueString &&
    apiRecord.Value == planRecord.Value.valueString &&
    apiRecord.TTL == planRecord.Ttl.valueInt32 &&
    apiRecord.Priority == planRecord.Priority.valueInt32

/-- Loopia API client handle (`*loopia.API`): modelled by the credential
pair it was constructed from. -/
structure API where
  username : String
  password : String
deriving DecidableEq, Repr

/-- Value delivered to an adapter's Configure hook when provider data is
present: either the expected `*loopia.API`, or a value of some other Go
type (carrying its `%T` type name). -/
inductive ProviderData where
  | api : API → ProviderData
  | other : String → ProviderData
deriving DecidableEq, Repr

/-- Result of an adapter's Configure hook: accumulated diagnostics and
the adapter's client pointer after the call (`none` models nil). -/
structure ConfigureResponse where
  diagnostics : List Diag
  client : Option API
deriving DecidableEq, Repr

/-- Configure hook of the subdomain resource
(`subdomainResource.Configure`). -/
def subdomainResourceConfigure (providerData : Option ProviderData) : ConfigureResponse :=
  match providerData with
  | none => { diagnostics := [], client := none }
  | some (.api client) => { diagnostics := [], client := some client }
  | some (.other typeName) =>
      { diagnostics :=
          [⟨none, "Unexpected Data Source Configure Type",
            "Expected *hashicups.Client, got: " ++ typeName ++
              ". Please report this issue to the provider developers."⟩],
        client := none }

/-- Configure hook of the zone-record resource
(`zoneRecordResource.Configure`). -/
def zoneRecordResourceConfigure (providerData : Option ProviderData) : ConfigureResponse :=
  match providerData with
  | none => { diagnostics := [], client := none }
  | some (.api client) => { diagnostics := [], client := some client }
  | some (.other typeName) =>
      { diagnostics :=
          [⟨none, "Unexpected Resource Configure Type",
            "Expected *loopia.API, got: " ++ typeName ++
              ". Please report this issue to the provider developers."⟩],
        client := none }

/-- Configure hook of the domain data source
(`DomainDataSource.Configure`). -/
def domainDataSourceConfigure (providerData : Option ProviderData) : ConfigureResponse :=
  match providerData with
  | none => { diagnostics := [], client := none }
  | some (.api client) => { diagnostics := [], client := some client }
  | some (.other typeName) =>
      { diagnostics :=
          [⟨none, "Unexpected Data Source Configure Type",
            "Expected *loopia.API, got: " ++ typeName ++
              ". Please report this issue to the provider developers."⟩],
        client := none }

/-- Remote Loopia client as an oracle: one function per operation the
adapters invoke, each returning a value or an error string. -/
structure ClientOracle where
  addZoneRecord : String → String → loopia.Record → Except String Unit
  getZoneRecords : String → String → Except String (List loopia.Record)
  getZoneRecord : String → String → Int → Except String loopia.Record
  updateZoneRecord : String → String → loopia.Record → Except String Unit
  removeZoneRecord : String → String → Int → Except String Unit
  addSubdomain : String → String → Except String Unit
  getSubdomains : String → Except String (List loopia.Subdomain)
  removeSubDomain : String → String → Except String Unit

/-- Result of a Create or Update call: diagnostics plus the state
written, `none` when the handler returned before `resp.State.Set`. -/
structure WriteResponse (σ : Type) where
  diagnostics : List Diag
  state : Option σ
deriving DecidableEq, Repr

/-- Outcome of a Read call on the prior state: left unchanged (early
return), removed (`resp.State.RemoveResource`), or written. -/
inductive StateOutcome (σ : Type) where
  | unchanged : StateOutcome σ
  | removed : StateOutcome σ
  | written : σ → StateOutcome σ
deriving DecidableEq, Repr

/-- Result of a Read call. -/
structure ReadResponse (σ : Type) where
  diagnostics : List Diag
  state : StateOutcome σ
deriving DecidableEq, Repr

/-- Create handler of the zone-record resource
(`zoneRecordResource.Create`): add the record, re-list all records for
the (domain, subdomain) pair, adopt the first structural match. -/
def zoneRecordCreate (client : ClientOracle) (plan : ZoneRecordResourceModel) :
    WriteResponse ZoneRecordResourceModel :=
  let planRecord := plan.Record.toClientRecord
  match client.addZoneRecord plan.Domain.valueString plan.Subdomain.valueString planRecord with
  | .error e =>
      { diagnostics := [⟨none, "Error Creating Zone Record",
          "Could not create zone record: " ++ e⟩],
        state := none }
  | .ok _ =>
    match client.getZoneRecords plan.Domain.valueString plan.Subdomain.valueString with
    | .error e =>
        { diagnostics := [⟨none, "Error Fetching Zone Records After Creation",
            "Could not list zone records: " ++ e⟩],
          state := none }
    | .ok records =>
      match records.find? (fun listed => recordsMatch listed plan.Record) with
      | none =>
          { diagnostics := [⟨none, "Unable to Identify Created Record",
              "Could not find the newly created record in the API response."⟩],
            state := none }
      | some createdRecord =>
          { diagnostics := [],
            state := some { plan with Record := recordModelFromClient createdRecord } }

/-- Read handler of the zone-record resource (`zoneRecordResource.Read`):
fetch the single record by identifier; any error is a diagnostic and the
state is left as-is. -/
def zoneRecordRead (client : ClientOracle) (state : ZoneRecordResourceModel) :
    ReadResponse ZoneRecordResourceModel :=
  match client.getZoneRecord state.Domain.valueString state.Subdomain.valueString
      state.Record.RecordId.valueInt32 with
  | .error e =>
      { diagnostics := [⟨none, "Error Reading Zone Record",
          "Could not read zone record ID " ++
            toString state.Record.RecordId.valueInt32 ++ ": " ++ e⟩],
        state := .unchanged }
  | .ok fetched =>
      { diagnostics := [],
        state := .written { state with Record := recordModelFromClient fetched } }

/-- Update handler of the zone-record resource
(`zoneRecordResource.Update`): overwrite the planned record's identifier
with the prior state's, update, then re-fetch by that identifier. -/
def zoneRecordUpdate (client : ClientOracle) (state plan : ZoneRecordResourceModel) :
    WriteResponse ZoneRecordResourceModel :=
  let plan1 : ZoneRecordResourceModel :=
    { plan with Record := { plan.Record with RecordId := state.Record.RecordId } }
  let updRec := plan1.Record.toClientRecord
  match client.updateZoneRecord plan1.Domain.valueString plan1.Subdomain.valueString updRec with
  | .error e =>
      { diagnostics := [⟨none, "Error Updating Zone Record",
          "Could not update zone record ID " ++
            toString plan1.Record.RecordId.valueInt32 ++ ": " ++ e⟩],
        state := none }
  | .ok _ =>
    match client.getZoneRecord plan1.Domain.valueString plan1.Subdomain.valueString
        plan1.Record.RecordId.valueInt32 with
    | .error e =>
        { diagnostics := [⟨none, "Error Refreshing Zone Record After Update",
            "Could not read updated zone record: " ++ e⟩],
          state := none }
    | .ok updatedRec =>
        { diagnostics := [],
          state := some { plan1 with Record := recordModelFromClient updatedRec } }

/-- Create handler of the subdomain resource
(`subdomainResource.Create`): add the subdomain and store the plan's two
fields verbatim as state. -/
def subdomainCreate (client : ClientOracle) (plan : SubdomainResourceModel) :
    WriteResponse SubdomainResourceModel :=
  match client.addSubdomain plan.Domain.valueString plan.Subdomain.valueString with
  | .error e =>
      { diagnostics := [⟨none, "Error creating subdomain",
          "Could not create subdomain, unexpected error: " ++ e⟩],
        state := none }
  | .ok _ => { diagnostics := [], state := some plan }

/-- Read handler of the subdomain resource (`subdomainResource.Read`):
list all subdomains, scan for the stored name; absent means the resource
is removed from state, present means the state is written back as-is. -/
def subdomainRead (client : ClientOracle) (state : SubdomainResourceModel) :
    ReadResponse SubdomainResourceModel :=
  match client.getSubdomains state.Domain.valueString with
  | .error e =>
      { diagnostics := [⟨none, "Unable to Read Subdomains", e⟩],
        state := .unchanged }
  | .ok subdomains =>
    let found := subdomains.any (fun subdomain => subdomain.Name == state.Subdomain.valueString)
    if found then { diagnostics := [], state := .written state }
    else { diagnostics := [], state := .removed }

/-- Provider configuration model (`loopiaProviderModel`): the two
optional credential attributes. -/
structure loopiaProviderModel where
  Username : TFString
  Password : TFString
deriving DecidableEq, Repr

/-- Process environment as read by provider Configure: the values of
LOOPIA_USERNAME and LOOPIA_PASSWORD (empty string when unset, as with
Go's `os.Getenv`). -/
structure Env where
  loopiaUsername : String
  loopiaPassword : String
deriving DecidableEq, Repr

/-- Diagnostic added when the username attribute is unknown. -/
def usernameUnknownDiag : Diag :=
  ⟨some ("username"), "Unknown Loopia API Username",
    "The provider cannot create the Loopia API client as there is an unknown configuration value for the Loopia API username. Either target apply the source of the value first, set the value statically in the configuration, or use the LOOPIA_USERNAME environment variable."⟩

/-- Diagnostic added when the password attribute is unknown. -/
def passwordUnknownDiag : Diag :=
  ⟨some ("password"), "Unknown Loopia API Password",
    "The provider cannot create the Loopia API client as there is an unknown configuration value for the Loopia API password. Either target apply the source of the value first, set the value statically in the configuration, or use the LOOPIA_PASSWORD environment variable."⟩

/-- Diagnostic added when the resolved username is empty. -/
def usernameMissingDiag : Diag :=
  ⟨some ("username"), "Missing Loopia API Username",
    "The provider cannot create the Loopia API client as there is a missing or empty value for the Loopia API username. Set the username value in the configuration or use the LOOPIA_USERNAME environment variable. If either is already set, ensure the value is not empty."⟩

/-- Diagnostic added when the resolved password is empty. -/
def passwordMissingDiag : Diag :=
  ⟨some ("password"), "Missing Loopia API Password",
    "The provider cannot create the Loopia API client as there is a missing or empty value for the Loopia API password. Set the password value in the configuration or use the LOOPIA_PASSWORD environment variable. If either is already set, ensure the value is not empty."⟩

/-- Diagnostic added when `loopia.New` itself fails. -/
def clientCreateErrDiag (e : String) : Diag :=
  ⟨none, "Unable to Create Loopia API Client",
    "An unexpected error occurred when creating the Loopia API client. If the error is not clear, please contact the provider developers.\n\nLoopia Client Error: " ++ e⟩

/-- Configure of the provider root (`LoopiaProvider.Configure`):
reject unknown credential attributes, resolve each credential from
explicit configuration over the environment, reject empty resolutions,
then construct the shared client.  `newClient` models `loopia.New`,
whose body lives in the external client library. -/
def providerConfigure (newClient : String → String → Except String API)
    (env : Env) (config : loopiaProviderModel) : ConfigureResponse :=
  let unknownDiags :=
    (if config.Username.isUnknown then [usernameUnknownDiag] else []) ++
      (if config.Password.isUnknown then [passwordUnknownDiag] else [])
  if !unknownDiags.isEmpty then
    { diagnostics := unknownDiags, client := none }
  else
    let username :=
      if !config.Username.isNull then config.Username.valueString else env.loopiaUsername
    let password :=
      if !config.Password.isNull then config.Password.valueString else env.loopiaPassword
    let missingDiags :=
      (if username = "" then [usernameMissingDiag] else []) ++
        (if password = "" then [passwordMissingDiag] else [])
    if !missingDiags.isEmpty then
      { diagnostics := missingDiags, client := none }
    else
      match newClient username password with
      | .error e => { diagnostics := [clientCreateErrDiag e], client := none }
      | .ok client => { diagnostics := [], client := some client }

/-- Truncation is the identity exactly on the signed 32-bit range. -/
lemma toInt32_eq_self_iff (x : Int) : toInt32 x = x ↔ -(2 ^ 31) ≤ x ∧ x < 2 ^ 31 := by
  unfold toInt32
  omega

/-- Truncation preserves the residue modulo 2^32. -/
lemma toInt32_emod (x : Int) : toInt32 x % 2 ^ 32 = x % 2 ^ 32 := by
  unfold toInt32
  omega

/-- C8: the zone-record adapters narrow the client's 64-bit identifier
(and int-typed TTL and priority) to 32-bit state fields by truncation:
converting a client record to the Terraform model and back preserves the
string fields always, preserves ID, TTL and priority exactly if and only
if each lies in the signed 32-bit range, and in general wraps the
identifier modulo 2^32. -/
theorem recordModel_roundTrip_int32 (rec : loopia.Record) :
    ((recordModelFromClient rec).toClientRecord.RecType = rec.RecType ∧
        (recordModelFromClient rec).toClientRecord.Value = rec.Value) ∧
      (((recordModelFromClient rec).toClientRecord.ID = rec.ID ∧
          (recordModelFromClient rec).toClientRecord.TTL = rec.TTL ∧
          (recordModelFromClient rec).toClientRecord.Priority = rec.Priority) ↔
        ((-(2 ^ 31) ≤ rec.ID ∧ rec.ID < 2 ^ 31) ∧
          (-(2 ^ 31) ≤ rec.TTL ∧ rec.TTL < 2 ^ 31) ∧
          (-(2 ^ 31) ≤ rec.Priority ∧ rec.Priority < 2 ^ 31))) ∧
      (recordModelFromClient rec).toClientRecord.ID % 2 ^ 32 = rec.ID % 2 ^ 32 := by
  refine ⟨⟨rfl, rfl⟩, ?_, ?_⟩
  · show (toInt32 rec.ID = rec.ID ∧ toInt32 rec.TTL = rec.TTL ∧
        toInt32 rec.Priority = rec.Priority) ↔ _
    rw [toInt32_eq_self_iff, toInt32_eq_self_iff, toInt32_eq_self_iff]
  · exact toInt32_emod rec.ID

/-- C9: a planned record whose ttl and priority attributes are null is
submitted with TTL 0 and Priority 0, and the post-creation match then
accepts a listed record only when its TTL and Priority are exactly 0,
regardless of the record type. -/
theorem toClientRecord_null_zero_match (m : recordModel) (listed : loopia.Record)
    (h1 : m.Ttl = TFInt32.nullV) (h2 : m.Priority = TFInt32.nullV) :
    m.toClientRecord.TTL = 0 ∧ m.toClientRecord.Priority = 0 ∧
      (recordsMatch listed m = true ↔
        (listed.RecType = m.RecType.valueString ∧ listed.Value = m.Value.valueString ∧
          listed.TTL = 0 ∧ listed.Priority = 0)) := by
  refine ⟨?_, ?_, ?_⟩
  · simp [recordModel.toClientRecord, h1, TFInt32.valueInt32]
  · simp [recordModel.toClientRecord, h2, TFInt32.valueInt32]
  · simp [recordsMatch, h1, h2, TFInt32.valueInt32, and_assoc]

/-- Planned record with null ttl and priority, used to instantiate the
null-attribute theorem. -/
def nullTtlPlanRecord : recordModel :=
  { RecType := TFString.val ("A")
    Ttl := TFInt32.nullV
    Priority := TFInt32.nullV
    Value := TFString.val ("1.2.3.4")
    RecordId := TFInt32.unknownV }

/-- Concrete listed record matching the null-ttl plan. -/
def nullTtlListedRecord : loopia.Record :=
  { ID := 7, TTL := 0, RecType := "A", Value := "1.2.3.4", Priority := 0 }

/-- Concrete instance of the null ttl/priority property. -/
theorem toClientRecord_null_zero_match_witness :
    nullTtlPlanRecord.toClientRecord.TTL = 0 ∧
      nullTtlPlanRecord.toClientRecord.Priority = 0 ∧
      (recordsMatch nullTtlListedRecord nullTtlPlanRecord = true ↔
        (nullTtlListedRecord.RecType = nullTtlPlanRecord.RecType.valueString ∧
          nullTtlListedRecord.Value = nullTtlPlanRecord.Value.valueString ∧
          nullTtlListedRecord.TTL = 0 ∧ nullTtlListedRecord.Priority = 0)) :=
  toClientRecord_null_zero_match nullTtlPlanRecord nullTtlListedRecord rfl rfl

/-- C10: every modelled adapter Configure hook returns silently on nil
provider data (no diagnostic, client left nil), installs the client when
given a `*loopia.API`, and adds a diagnostic with no client only when
provider data is present but of another type. -/
theorem adapterConfigure_nil_silent (pd : Option ProviderData) :
    (pd = none →
        subdomainResourceConfigure pd = ⟨[], none⟩ ∧
        zoneRecordResourceConfigure pd = ⟨[], none⟩ ∧
        domainDataSourceConfigure pd = ⟨[], none⟩) ∧
      (∀ c, pd = some (ProviderData.api c) →
        subdomainResourceConfigure pd = ⟨[], some c⟩ ∧
        zoneRecordResourceConfigure pd = ⟨[], some c⟩ ∧
        domainDataSourceConfigure pd = ⟨[], some c⟩) ∧
      (∀ t, pd = some (ProviderData.other t) →
        (subdomainResourceConfigure pd).client = none ∧
        (subdomainResourceConfigure pd).diagnostics ≠ [] ∧
        (zoneRecordResourceConfigure pd).client = none ∧
        (zoneRecordResourceConfigure pd).diagnostics ≠ [] ∧
        (domainDataSourceConfigure pd).client = none ∧
        (domainDataSourceConfigure pd).diagnostics ≠ []) := by
  refine ⟨?_, ?_, ?_⟩
  · rintro rfl
    exact ⟨rfl, rfl, rfl⟩
  · rintro c rfl
    exact ⟨rfl, rfl, rfl⟩
  · rintro t rfl
    simp [subdomainResourceConfigure, zoneRecordResourceConfigure, domainDataSourceConfigure]

/-- Concrete instance of the nil-provider-data property. -/
theorem adapterConfigure_nil_silent_witness :
    subdomainResourceConfigure none = ⟨[], none⟩ ∧
      zoneRecordResourceConfigure none = ⟨[], none⟩ ∧
      domainDataSourceConfigure none = ⟨[], none⟩ :=
  (adapterConfigure_nil_silent none).1 rfl

/-- Helper: behaviour of subdomain Read under a successful listing,
shared by the drift and round-trip theorems. -/
lemma subdomainRead_listing_cases (client : ClientOracle) (state : SubdomainResourceModel)
    (l : List loopia.Subdomain)
    (hlist : client.getSubdomains state.Domain.valueString = Except.ok l) :
    ((∀ sd ∈ l, sd.Name ≠ state.Subdomain.valueString) →
        subdomainRead client state = ⟨[], StateOutcome.removed⟩) ∧
      ((∃ sd ∈ l, sd.Name = state.Subdomain.valueString) →
        subdomainRead client state = ⟨[], StateOutcome.written state⟩) := by
  constructor
  · intro h
    have hany : l.any (fun subdomain => subdomain.Name == state.Subdomain.valueString) = false := by
      simp only [List.any_eq_false, beq_iff_eq]
      exact h
    simp [subdomainRead, hlist, hany]
  · rintro ⟨sd, hsd, heq⟩
    have hany : l.any (fun subdomain => subdomain.Name == state.Subdomain.valueString) = true := by
      simp only [List.any_eq_true, beq_iff_eq]
      exact ⟨sd, hsd, heq⟩
    simp [subdomainRead, hlist, hany]

/-- C4: when the subdomain listing succeeds, Read removes the resource
from state without any diagnostic if no listed name equals the stored
subdomain name, and writes the stored state back unchanged if one
does. -/
theorem subdomainRead_drift (client : ClientOracle) (state : SubdomainResourceModel)
    (l : List loopia.Subdomain)
    (hlist : client.getSubdomains state.Domain.valueString = Except.ok l) :
    ((∀ sd ∈ l, sd.Name ≠ state.Subdomain.valueString) →
        subdomainRead client state = ⟨[], StateOutcome.removed⟩) ∧
      ((∃ sd ∈ l, sd.Name = state.Subdomain.valueString) →
        subdomainRead client state = ⟨[], StateOutcome.written state⟩) :=
  subdomainRead_listing_cases client state l hlist

/-- Subdomain state used in concrete instances. -/
def sdState : SubdomainResourceModel :=
  { Domain := TFString.val ("example.com"), Subdomain := TFString.val ("www") }

/-- Client oracle whose subdomain listing is empty and every other
operation is unused. -/
def emptyListClient : ClientOracle :=
  { addZoneRecord := fun _ _ _ => Except.error ("unused")
    getZoneRecords := fun _ _ => Except.error ("unused")
    getZoneRecord := fun _ _ _ => Except.error ("unused")
    updateZoneRecord := fun _ _ _ => Except.error ("unused")
    removeZoneRecord := fun _ _ _ => Except.error ("unused")
    addSubdomain := fun _ _ => Except.ok ()
    getSubdomains := fun _ => Except.ok []
    removeSubDomain := fun _ _ => Except.error ("unused") }

/-- Concrete instance: an out-of-band-deleted subdomain is dropped from
state without error. -/
theorem subdomainRead_drift_witness :
    subdomainRead emptyListClient sdState = ⟨[], StateOutcome.removed⟩ :=
  (subdomainRead_drift emptyListClient sdState [] rfl).1 (by simp)

/-- C5: zone-record Read never removes the resource from state, and any
error from the single-record fetch (a not-found condition included)
surfaces as an error diagnostic with the state left as-is. -/
theorem zoneRecordRead_error_no_removal (client : ClientOracle)
    (state : ZoneRecordResourceModel) :
    (zoneRecordRead client state).state ≠ StateOutcome.removed ∧
      (∀ e, client.getZoneRecord state.Domain.valueString state.Subdomain.valueString
            state.Record.RecordId.valueInt32 = Except.error e →
        (zoneRecordRead client state).diagnostics =
          [⟨none, "Error Reading Zone Record",
            "Could not read zone record ID " ++
              toString state.Record.RecordId.valueInt32 ++ ": " ++ e⟩] ∧
        (zoneRecordRead client state).state = StateOutcome.unchanged) := by
  constructor
  · unfold zoneRecordRead
    cases h : client.getZoneRecord state.Domain.valueString state.Subdomain.valueString
        state.Record.RecordId.valueInt32 <;> simp
  · intro e he
    unfold zoneRecordRead
    rw [he]
    exact ⟨rfl, rfl⟩

/-- Zone-record state used in concrete instances. -/
def zrState : ZoneRecordResourceModel :=
  { Domain := TFString.val ("example.com")
    Subdomain := TFString.val ("www")
    Record :=
      { RecType := TFString.val ("A")
        Ttl := TFInt32.val 300
        Priority := TFInt32.val 0
        Value := TFString.val ("1.2.3.4")
        RecordId := TFInt32.val 7 } }

/-- Client oracle whose single-record fetch always reports not found. -/
def notFoundClient : ClientOracle :=
  { addZoneRecord := fun _ _ _ => Except.error ("unused")
    getZoneRecords := fun _ _ => Except.error ("unused")
    getZoneRecord := fun _ _ _ => Except.error ("record not found")
    updateZoneRecord := fun _ _ _ => Except.error ("unused")
    removeZoneRecord := fun _ _ _ => Except.error ("unused")
    addSubdomain := fun _ _ => Except.error ("unused")
    getSubdomains := fun _ => Except.error ("unused")
    removeSubDomain := fun _ _ => Except.error ("unused") }

/-- Concrete instance: a not-found fetch yields a diagnostic and no
state change. -/
theorem zoneRecordRead_error_no_removal_witness :
    (zoneRecordRead notFoundClient zrState).diagnostics =
        [⟨none, "Error Reading Zone Record",
          "Could not read zone record ID " ++ toString (7 : Int) ++ ": record not found"⟩] ∧
      (zoneRecordRead notFoundClient zrState).state = StateOutcome.unchanged :=
  (zoneRecordRead_error_no_removal notFoundClient zrState).2 ("record not found") rfl

/-- C7: a successful subdomain Create stores exactly the planned
(domain, subdomain) pair as state, and a subsequent Read whose listing
contains that subdomain name writes the same state back. -/
theorem subdomain_create_then_read (client : ClientOracle)
    (plan : SubdomainResourceModel) (l : List loopia.Subdomain)
    (hadd : client.addSubdomain plan.Domain.valueString plan.Subdomain.valueString
        = Except.ok ()) :
    subdomainCreate client plan = ⟨[], some plan⟩ ∧
      (client.getSubdomains plan.Domain.valueString = Except.ok l →
        (∃ sd ∈ l, sd.Name = plan.Subdomain.valueString) →
        subdomainRead client plan = ⟨[], StateOutcome.written plan⟩) := by
  constructor
  · unfold subdomainCreate
    rw [hadd]
  · intro hlist hmem
    exact (subdomainRead_listing_cases client plan l hlist).2 hmem

/-- Client oracle for the create-then-read round trip: creation succeeds
and the listing contains the created name. -/
def roundTripClient : ClientOracle :=
  { addZoneRecord := fun _ _ _ => Except.error ("unused")
    getZoneRecords := fun _ _ => Except.error ("unused")
    getZoneRecord := fun _ _ _ => Except.error ("unused")
    updateZoneRecord := fun _ _ _ => Except.error ("unused")
    removeZoneRecord := fun _ _ _ => Except.error ("unused")
    addSubdomain := fun _ _ => Except.ok ()
    getSubdomains := fun _ => Except.ok [⟨"www"⟩]
    removeSubDomain := fun _ _ => Except.error ("unused") }

/-- Concrete create-then-read round trip on a subdomain. -/
theorem subdomain_create_then_read_witness :
    subdomainCreate roundTripClient sdState = ⟨[], some sdState⟩ ∧
      subdomainRead roundTripClient sdState = ⟨[], StateOutcome.written sdState⟩ := by
  have h := subdomain_create_then_read roundTripClient sdState [⟨"www"⟩] rfl
  exact ⟨h.1, h.2 rfl ⟨⟨"www"⟩, by simp, rfl⟩⟩

/-- Helper: an element returned by `List.find?` is the first element of
the list satisfying the predicate. -/
lemma find?_first {α : Type} (p : α → Bool) (l : List α) (r : α)
    (h : l.find? p = some r) :
    ∃ k, ∃ hk : k < l.length, l.get ⟨k, hk⟩ = r ∧ p r = true ∧
      ∀ m, (hm : m < l.length) → m < k → p (l.get ⟨m, hm⟩) = false := by
  induction l with
  | nil => simp [List.find?] at h
  | cons a as ih =>
    by_cases hpa : p a = true
    · rw [List.find?_cons_of_pos _ hpa] at h
      obtain rfl : a = r := by injection h
      exact ⟨0, Nat.succ_pos _, rfl, hpa, fun m hm hmk => absurd hmk (Nat.not_lt_zero m)⟩
    · have hpa' : p a = false := by
        exact Bool.not_eq_true _ ▸ eq_false_of_ne_true hpa
      rw [List.find?_cons_of_neg _ (by simp [hpa'])] at h
      obtain ⟨k, hk, hget, hpr, hprev⟩ := ih h
      refine ⟨k + 1, Nat.succ_lt_succ hk, hget, hpr, ?_⟩
      intro m hm hmk
      match m, hm, hmk with
      | 0, _, _ => exact hpa'
      | m' + 1, hm, hmk =>
        exact hprev m' (Nat.lt_of_succ_lt_succ hm) (Nat.lt_of_succ_lt_succ hmk)

/-- Planned zone record whose post-creation listing will hold duplicate
structural matches. -/
def dupPlan : ZoneRecordResourceModel :=
  { Domain := TFString.val ("example.com")
    Subdomain := TFString.val ("www")
    Record :=
      { RecType := TFString.val ("A")
        Ttl := TFInt32.val 300
        Priority := TFInt32.val 0
        Value := TFString.val ("1.2.3.4")
        RecordId := TFInt32.unknownV } }

/-- First listed record, structurally identical to the submitted
values. -/
def dupRecord1 : loopia.Record :=
  { ID := 1, TTL := 300, RecType := "A", Value := "1.2.3.4", Priority := 0 }

/-- Second listed record, identical to the first except for its
identifier. -/
def dupRecord2 : loopia.Record :=
  { ID := 2, TTL := 300, RecType := "A", Value := "1.2.3.4", Priority := 0 }

/-- Client oracle whose post-creation listing holds the two identical
records. -/
def dupClient : ClientOracle :=
  { addZoneRecord := fun _ _ _ => Except.ok ()
    getZoneRecords := fun _ _ => Except.ok [dupRecord1, dupRecord2]
    getZoneRecord := fun _ _ _ => Except.error ("unused")
    updateZoneRecord := fun _ _ _ => Except.error ("unused")
    removeZoneRecord := fun _ _ _ => Except.error ("unused")
    addSubdomain := fun _ _ => Except.error ("unused")
    getSubdomains := fun _ => Except.error ("unused")
    removeSubDomain := fun _ _ => Except.error ("unused") }

/-- C1 refutation: with two listed records whose (type, value, ttl,
priority) tuples are identical to the submitted values, Create surfaces
no error and adopts the first record's identifier into state. -/
theorem zoneRecordCreate_duplicate_adopts_first :
    recordsMatch dupRecord1 dupPlan.Record = true ∧
      recordsMatch dupRecord2 dupPlan.Record = true ∧
      dupRecord1.ID ≠ dupRecord2.ID ∧
      (zoneRecordCreate dupClient dupPlan).diagnostics = [] ∧
      (zoneRecordCreate dupClient dupPlan).state =
        some { dupPlan with Record := recordModelFromClient dupRecord1 } :=
  ⟨rfl, rfl, by decide, rfl, rfl⟩

/-- C1 amended: when the post-creation listing contains two or more
records structurally identical to the submitted values, Create reports
no error and adopts the first structural match in listing order; an
error is surfaced only when no listed record matches. -/
theorem zoneRecordCreate_duplicates_first_adopted (client : ClientOracle)
    (plan : ZoneRecordResourceModel) (l : List loopia.Record) (i j : Nat)
    (hadd : client.addZoneRecord plan.Domain.valueString plan.Subdomain.valueString
        plan.Record.toClientRecord = Except.ok ())
    (hlist : client.getZoneRecords plan.Domain.valueString plan.Subdomain.valueString
        = Except.ok l)
    (hij : i < j) (hj : j < l.length)
    (hmi : recordsMatch (l.get ⟨i, Nat.lt_trans hij hj⟩) plan.Record = true)
    (_hmj : recordsMatch (l.get ⟨j, hj⟩) plan.Record = true) :
    ∃ r, l.find? (fun listed => recordsMatch listed plan.Record) = some r ∧
      zoneRecordCreate client plan =
        ⟨[], some { plan with Record := recordModelFromClient r }⟩ := by
  have hsome : (l.find? (fun listed => recordsMatch listed plan.Record)).isSome := by
    rw [List.find?_isSome]
    exact ⟨l.get ⟨i, Nat.lt_trans hij hj⟩, List.get_mem l i _, hmi⟩
  obtain ⟨r, hr⟩ := Option.isSome_iff_exists.mp hsome
  refine ⟨r, hr, ?_⟩
  simp only [zoneRecordCreate, hadd, hlist, hr]

/-- Concrete instance: duplicate listing, first identifier adopted. -/
theorem zoneRecordCreate_duplicates_first_adopted_witness :
    ∃ r, [dupRecord1, dupRecord2].find?
          (fun listed => recordsMatch listed dupPlan.Record) = some r ∧
      zoneRecordCreate dupClient dupPlan =
        ⟨[], some { dupPlan with Record := recordModelFromClient r }⟩ :=
  zoneRecordCreate_duplicates_first_adopted dupClient dupPlan [dupRecord1, dupRecord2]
    0 1 rfl rfl (by decide) (by decide) rfl rfl

/-- C2: after a successful add and listing, Create adopts the first
listed record (in listing order) whose tuple matches the submitted
values, and when no listed record matches it adds the fatal diagnostic
and writes no state. -/
theorem zoneRecordCreate_spec (client : ClientOracle)
    (plan : ZoneRecordResourceModel) (l : List loopia.Record)
    (hadd : client.addZoneRecord plan.Domain.valueString plan.Subdomain.valueString
        plan.Record.toClientRecord = Except.ok ())
    (hlist : client.getZoneRecords plan.Domain.valueString plan.Subdomain.valueString
        = Except.ok l) :
    (∀ r, l.find? (fun listed => recordsMatch listed plan.Record) = some r →
        zoneRecordCreate client plan =
          ⟨[], some { plan with Record := recordModelFromClient r }⟩ ∧
        ∃ k, ∃ hk : k < l.length, l.get ⟨k, hk⟩ = r ∧
          recordsMatch r plan.Record = true ∧
          ∀ m, (hm : m < l.length) → m < k →
            recordsMatch (l.get ⟨m, hm⟩) plan.Record = false) ∧
      (l.find? (fun listed => recordsMatch listed plan.Record) = none →
        zoneRecordCreate client plan =
          ⟨[⟨none, "Unable to Identify Created Record",
              "Could not find the newly created record in the API response."⟩],
            none⟩) := by
  constructor
  · intro r hr
    constructor
    · simp only [zoneRecordCreate, hadd, hlist, hr]
    · exact find?_first _ l r hr
  · intro hnone
    simp only [zoneRecordCreate, hadd, hlist, hnone]

/-- Client oracle whose post-creation listing holds exactly one matching
record. -/
def uniqueClient : ClientOracle :=
  { addZoneRecord := fun _ _ _ => Except.ok ()
    getZoneRecords := fun _ _ => Except.ok [dupRecord1]
    getZoneRecord := fun _ _ _ => Except.error ("unused")
    updateZoneRecord := fun _ _ _ => Except.error ("unused")
    removeZoneRecord := fun _ _ _ => Except.error ("unused")
    addSubdomain := fun _ _ => Except.error ("unused")
    getSubdomains := fun _ => Except.error ("unused")
    removeSubDomain := fun _ _ => Except.error ("unused") }

/-- Concrete instance: the sole matching listed record is adopted. -/
theorem zoneRecordCreate_spec_witness :
    zoneRecordCreate uniqueClient dupPlan =
        ⟨[], some { dupPlan with Record := recordModelFromClient dupRecord1 }⟩ ∧
      ∃ k, ∃ hk : k < [dupRecord1].length, [dupRecord1].get ⟨k, hk⟩ = dupRecord1 ∧
        recordsMatch dupRecord1 dupPlan.Record = true ∧
        ∀ m, (hm : m < [dupRecord1].length) → m < k →
          recordsMatch ([dupRecord1].get ⟨m, hm⟩) dupPlan.Record = false :=
  (zoneRecordCreate_spec uniqueClient dupPlan [dupRecord1] rfl rfl).1 dupRecord1 rfl

/-- C6: Update submits the identifier taken from the prior state (the
planned record's identifier is overwritten before the update call),
re-fetches under that same identifier for the new state, and aborts with
a diagnostic writing no state when either client call fails; when the
re-fetch returns a record carrying the requested identifier, that
identifier is retained in the resulting state. -/
theorem zoneRecordUpdate_spec (client : ClientOracle)
    (state plan : ZoneRecordResourceModel) :
    ({ plan.Record with RecordId := state.Record.RecordId } : recordModel).toClientRecord.ID
        = state.Record.RecordId.valueInt32 ∧
      (∀ e, client.updateZoneRecord plan.Domain.valueString plan.Subdomain.valueString
            ({ plan.Record with RecordId := state.Record.RecordId } : recordModel).toClientRecord
            = Except.error e →
        (zoneRecordUpdate client state plan).state = none ∧
        (zoneRecordUpdate client state plan).diagnostics ≠ []) ∧
      (∀ e, client.updateZoneRecord plan.Domain.valueString plan.Subdomain.valueString
            ({ plan.Record with RecordId := state.Record.RecordId } : recordModel).toClientRecord
            = Except.ok () →
        client.getZoneRecord plan.Domain.valueString plan.Subdomain.valueString
            state.Record.RecordId.valueInt32 = Except.error e →
        (zoneRecordUpdate client state plan).state = none ∧
        (zoneRecordUpdate client state plan).diagnostics ≠ []) ∧
      (∀ r, client.updateZoneRecord plan.Domain.valueString plan.Subdomain.valueString
            ({ plan.Record with RecordId := state.Record.RecordId } : recordModel).toClientRecord
            = Except.ok () →
        client.getZoneRecord plan.Domain.valueString plan.Subdomain.valueString
            state.Record.RecordId.valueInt32 = Except.ok r →
        zoneRecordUpdate client state plan =
          ⟨[], some { plan with Record := recordModelFromClient r }⟩ ∧
        (r.ID = state.Record.RecordId.valueInt32 →
          -(2 ^ 31) ≤ r.ID → r.ID < 2 ^ 31 →
          (recordModelFromClient r).RecordId.valueInt32
            = state.Record.RecordId.valueInt32)) := by
  refine ⟨rfl, ?_, ?_, ?_⟩
  · intro e he
    simp only [zoneRecordUpdate, he]
    simp
  · intro e hok he
    simp only [zoneRecordUpdate, hok, he]
    simp
  · intro r hok hget
    refine ⟨by simp only [zoneRecordUpdate, hok, hget], ?_⟩
    intro hid hlo hhi
    show toInt32 r.ID = state.Record.RecordId.valueInt32
    rw [(toInt32_eq_self_iff r.ID).mpr ⟨hlo, hhi⟩, hid]

/-- Prior state and planned values for the concrete Update instance. -/
def updPlan : ZoneRecordResourceModel :=
  { Domain := TFString.val ("example.com")
    Subdomain := TFString.val ("www")
    Record :=
      { RecType := TFString.val ("A")
        Ttl := TFInt32.val 600
        Priority := TFInt32.val 0
        Value := TFString.val ("5.6.7.8")
        RecordId := TFInt32.nullV } }

/-- Record returned by the post-update re-fetch in the concrete Update
instance: it carries the requested identifier and the new values. -/
def updFetched : loopia.Record :=
  { ID := 7, TTL := 600, RecType := "A", Value := "5.6.7.8", Priority := 0 }

/-- Client oracle for the concrete Update instance: update succeeds and
the re-fetch echoes the requested identifier with the new values. -/
def updClient : ClientOracle :=
  { addZoneRecord := fun _ _ _ => Except.error ("unused")
    getZoneRecords := fun _ _ => Except.error ("unused")
    getZoneRecord := fun _ _ i =>
      Except.ok { ID := i, TTL := 600, RecType := "A", Value := "5.6.7.8", Priority := 0 }
    updateZoneRecord := fun _ _ _ => Except.ok ()
    removeZoneRecord := fun _ _ _ => Except.error ("unused")
    addSubdomain := fun _ _ => Except.error ("unused")
    getSubdomains := fun _ => Except.error ("unused")
    removeSubDomain := fun _ _ => Except.error ("unused") }

/-- Concrete Update instance: the prior identifier is preserved through
update, re-fetch, and the resulting state. -/
theorem zoneRecordUpdate_spec_witness :
    zoneRecordUpdate updClient zrState updPlan =
        ⟨[], some { updPlan with Record := recordModelFromClient updFetched }⟩ ∧
      (recordModelFromClient updFetched).RecordId.valueInt32
        = zrState.Record.RecordId.valueInt32 := by
  have h := (zoneRecordUpdate_spec updClient zrState updPlan).2.2.2 updFetched rfl rfl
  exact ⟨h.1, h.2 rfl (by decide) (by decide)⟩

/-- C3: provider Configure rejects unknown credential attributes with
one attribute-scoped diagnostic each and no client; otherwise each
credential resolves to the explicit configuration value when non-null
and to the environment variable when null, an empty resolution yields
one attribute-scoped diagnostic per missing credential (two when both
are missing) with no client constructed, and non-empty resolutions are
passed to the client constructor. -/
theorem providerConfigure_spec (newClient : String → String → Except String API)
    (env : Env) (config : loopiaProviderModel) :
    ((config.Username.isUnknown || config.Password.isUnknown) = true →
        providerConfigure newClient env config =
          ⟨(if config.Username.isUnknown then [usernameUnknownDiag] else []) ++
              (if config.Password.isUnknown then [passwordUnknownDiag] else []),
            none⟩) ∧
      (config.Username.isUnknown = false → config.Password.isUnknown = false →
        ((if config.Username.isNull then env.loopiaUsername
            else config.Username.valueString) = "" ∨
          (if config.Password.isNull then env.loopiaPassword
            else config.Password.valueString) = "") →
        providerConfigure newClient env config =
          ⟨(if (if config.Username.isNull then env.loopiaUsername
                  else config.Username.valueString) = ""
              then [usernameMissingDiag] else []) ++
              (if (if config.Password.isNull then env.loopiaPassword
                    else config.Password.valueString) = ""
                then [passwordMissingDiag] else []),
            none⟩) ∧
      (config.Username.isUnknown = false → config.Password.isUnknown = false →
        (if config.Username.isNull then env.loopiaUsername
          else config.Username.valueString) ≠ "" →
        (if config.Password.isNull then env.loopiaPassword
          else config.Password.valueString) ≠ "" →
        providerConfigure newClient env config =
          match newClient
              (if config.Username.isNull then env.loopiaUsername
                else config.Username.valueString)
              (if config.Password.isNull then env.loopiaPassword
                else config.Password.valueString) with
          | .error e => ⟨[clientCreateErrDiag e], none⟩
          | .ok c => ⟨[], some c⟩) := by
  obtain ⟨cu, cp⟩ := config
  refine ⟨?_, ?_, ?_⟩
  · intro h
    cases cu <;> cases cp <;>
      simp_all [providerConfigure, TFString.isUnknown, TFString.isNull,
        TFString.valueString]
  · intro h1 h2 h3
    cases cu <;> cases cp <;>
      simp_all only [TFString.isUnknown, TFString.isNull, TFString.valueString,
        if_true, if_false, Bool.true_eq_false] <;>
      · unfold providerConfigure
        simp only [TFString.isUnknown, TFString.isNull, TFString.valueString,
          Bool.not_true, Bool.not_false, if_true, if_false,
          List.append_nil, List.nil_append, List.isEmpty_nil, ite_true, ite_false,
          Bool.false_eq_true]
        split_ifs <;> simp_all
  · intro h1 h2 h3 h4
    cases cu <;> cases cp <;>
      simp_all only [TFString.isUnknown, TFString.isNull, TFString.valueString,
        if_true, if_false, Bool.true_eq_false] <;>
      · unfold providerConfigure
        simp only [TFString.isUnknown, TFString.isNull, TFString.valueString,
          Bool.not_true, Bool.not_false, if_true, if_false,
          List.append_nil, List.nil_append, List.isEmpty_nil, ite_true, ite_false,
          Bool.false_eq_true]
        split_ifs <;> simp_all

/-- Client constructor used in concrete Configure instances: always
succeeds with the supplied credentials, as `loopia.New` does absent a
transport failure. -/
def okNewClient (u p : String) : Except String API := Except.ok ⟨u, p⟩

/-- Concrete Configure instance: with neither credential configured nor
present in the environment, Configure fails with exactly the two
attribute-scoped missing-credential diagnostics and no client. -/
theorem providerConfigure_spec_witness :
    providerConfigure okNewClient ⟨"", ""⟩ ⟨TFString.nullV, TFString.nullV⟩ =
      ⟨[usernameMissingDiag, passwordMissingDiag], none⟩ :=
  (providerConfigure_spec okNewClient ⟨"", ""⟩ ⟨TFString.nullV, TFString.nullV⟩).2.1
    rfl rfl (Or.inl rfl)
